import Mathlib

/-!
Shallow embedding of the DeepSeekExporToPDF conversion pipeline: the Express
API server (src/unnamed/part_001) and the CLI converter
(src/html_to_pdf_converter.js). JavaScript objects with optional fields are
modelled with Option-valued fields; the puppeteer-html-pdf engine is
abstracted by an outcome parameter (the bytes it returns or the error message
it throws), and the side effects of a request are recorded as an event trace.
-/

namespace DeepSeekPdf

/-- A puppeteer margin object. In JavaScript each side may be absent from the
object, so each side is Option-valued. -/
structure Margin where
  top : Option String := none
  bottom : Option String := none
  left : Option String := none
  right : Option String := none
  deriving Repr, DecidableEq

/-- The default margin object of the destructuring default in convertHTML
(src/unnamed/part_001 line 62, src/html_to_pdf_converter.js line 91): all four
sides present, each "20px". -/
def defaultMargin : Margin :=
  { top := some "20px", bottom := some "20px", left := some "20px"
    right := some "20px" }

/-- The caller-supplied options object: every field optional (absent fields
are JavaScript undefined, modelled as none). scale is a JS number, modelled
as Rat since the code never computes with it; headless is destructured only
by the CLI variant of convertHTML, the server fixes it. -/
structure UserOptions where
  format : Option String := none
  orientation : Option String := none
  margin : Option Margin := none
  printBackground : Option Bool := none
  scale : Option Rat := none
  timeout : Option Nat := none
  headless : Option String := none
  deriving Repr, DecidableEq

/-- The six destructured locals of convertHTML once the defaults of
src/unnamed/part_001 lines 59-66 have been applied. -/
structure RenderOptions where
  format : String
  orientation : String
  margin : Margin
  printBackground : Bool
  scale : Rat
  timeout : Nat
  deriving Repr, DecidableEq

/-- The destructuring with defaults at the head of convertHTML
(src/unnamed/part_001 lines 59-66): each absent field is replaced by its
default, each present field is taken verbatim. -/
def resolve (o : UserOptions) : RenderOptions :=
  { format := o.format.getD "A4"
    orientation := o.orientation.getD "portrait"
    margin := o.margin.getD defaultMargin
    printBackground := o.printBackground.getD true
    scale := o.scale.getD 1
    timeout := o.timeout.getD 30000 }

/-- A complete options record viewed again as a caller-supplied object, every
field present (how defaultOptions from GET /api/options would arrive as the
options member of a conversion request). -/
def toUserOptions (r : RenderOptions) : UserOptions :=
  { format := some r.format
    orientation := some r.orientation
    margin := some r.margin
    printBackground := some r.printBackground
    scale := some r.scale
    timeout := some r.timeout }

/-- The pdfOptions object handed to htmlPDF.setOptions
(src/unnamed/part_001 lines 68-77, src/html_to_pdf_converter.js lines
99-109); path is present only in the CLI variant. -/
structure PdfOptions where
  format : String
  landscape : Bool
  margin : Margin
  printBackground : Bool
  scale : Rat
  timeout : Nat
  headless : String
  path : Option String := none
  args : List String
  deriving Repr, DecidableEq

/-- pdfOptions as the server builds it (src/unnamed/part_001 lines 68-77):
headless fixed to "new", no path, landscape is the strict equality test
orientation === 'landscape'. -/
def mkPdfOptions (o : UserOptions) : PdfOptions :=
  let r := resolve o
  { format := r.format
    landscape := r.orientation == "landscape"
    margin := r.margin
    printBackground := r.printBackground
    scale := r.scale
    timeout := r.timeout
    headless := "new"
    path := none
    args := ["--no-sandbox", "--disable-setuid-sandbox"] }

/-- pdfOptions as the CLI builds it (src/html_to_pdf_converter.js lines
99-109): headless destructured with default "new", path set to the output
file. -/
def mkPdfOptionsCli (o : UserOptions) (outputPdf : String) : PdfOptions :=
  let r := resolve o
  { format := r.format
    landscape := r.orientation == "landscape"
    margin := r.margin
    printBackground := r.printBackground
    scale := r.scale
    timeout := r.timeout
    headless := o.headless.getD "new"
    path := some outputPdf
    args := ["--no-sandbox", "--disable-setuid-sandbox"] }

/-- The observable side effects of a request: engine configuration, engine
invocation, browser teardown, output-directory creation and file reads. -/
inductive Ev where
  | setOptions (o : PdfOptions)
  | create
  | closeBrowser
  | ensureDir
  | readFile (p : String)
  deriving Repr, DecidableEq

/-- True exactly on the engine-invocation event. -/
def isCreate : Ev → Bool
  | Ev.create => true
  | _ => false

/-- How many times a trace invokes the rendering engine. -/
def createCalls (evs : List Ev) : Nat :=
  evs.countP isCreate

/-- The server's HTMLToPDFConverter.convertHTML (src/unnamed/part_001 lines
58-89): setOptions, then create inside try, closeBrowser in the finally on
both the return path and the throw path; an engine error is rethrown wrapped
as "PDF creation failed: ...". The engine itself is abstracted by outcome. -/
def convertHTML (o : UserOptions) (outcome : Except String (List Nat)) :
    Except String (List Nat) × List Ev :=
  match outcome with
  | Except.ok buf =>
      (Except.ok buf, [Ev.setOptions (mkPdfOptions o), Ev.create, Ev.closeBrowser])
  | Except.error msg =>
      (Except.error ("PDF creation failed: " ++ msg),
       [Ev.setOptions (mkPdfOptions o), Ev.create, Ev.closeBrowser])

/-- The CLI's HTMLToPDFConverter.convertHTML (src/html_to_pdf_converter.js
lines 87-125): same try/finally shape, but the engine error is rethrown
unchanged and the PDF is written to path rather than returned. -/
def convertHTMLCli (o : UserOptions) (outputPdf : String)
    (outcome : Except String Unit) : Except String Unit × List Ev :=
  match outcome with
  | Except.ok _ =>
      (Except.ok (), [Ev.setOptions (mkPdfOptionsCli o outputPdf), Ev.create,
        Ev.closeBrowser])
  | Except.error msg =>
      (Except.error msg, [Ev.setOptions (mkPdfOptionsCli o outputPdf), Ev.create,
        Ev.closeBrowser])

/-- An HTTP response body: the binary PDF or a JSON object. -/
inductive Body where
  | pdf (bytes : List Nat)
  | json (fields : List (String × String))
  deriving Repr, DecidableEq

/-- The slice of an Express response the handlers set: status, the two
headers, and the body. -/
structure Response where
  status : Nat
  contentType : Option String := none
  contentDisposition : Option String := none
  body : Body
  deriving Repr, DecidableEq

/-- The fixed Content-Disposition value of the success path. -/
def attachmentHeader : String := "attachment; filename=\"converted.pdf\""

/-- JavaScript truthiness of the required string field: !x holds for an
absent field and for the empty string. -/
def falsyStr : Option String → Bool
  | none => true
  | some s => s == ""

/-- Body of POST /api/convert/string. -/
structure ReqString where
  html : Option String := none
  options : Option UserOptions := none
  deriving Repr, DecidableEq

/-- Body of POST /api/convert/url. -/
structure ReqUrl where
  url : Option String := none
  options : Option UserOptions := none
  deriving Repr, DecidableEq

/-- The POST /api/convert/string handler (src/unnamed/part_001 lines
108-127): falsy html gives 400 before any converter is built; otherwise one
convertHTML call, a 200 PDF attachment on success and a 500 JSON error on
a throw. -/
def handleConvertString (req : ReqString) (outcome : Except String (List Nat)) :
    Response × List Ev :=
  if falsyStr req.html then
    ({ status := 400, body := Body.json [("error", "HTML content is required")] }, [])
  else
    let r := convertHTML (req.options.getD {}) outcome
    match r.1 with
    | Except.ok buf =>
        ({ status := 200, contentType := some "application/pdf"
           contentDisposition := some attachmentHeader, body := Body.pdf buf }, r.2)
    | Except.error msg =>
        ({ status := 500, body := Body.json [("error", msg)] }, r.2)

/-- The POST /api/convert/url handler (src/unnamed/part_001 lines 156-175):
identical shape to the string handler; the URL is handed to convertHTML as
the content argument. -/
def handleConvertUrl (req : ReqUrl) (outcome : Except String (List Nat)) :
    Response × List Ev :=
  if falsyStr req.url then
    ({ status := 400, body := Body.json [("error", "URL is required")] }, [])
  else
    let r := convertHTML (req.options.getD {}) outcome
    match r.1 with
    | Except.ok buf =>
        ({ status := 200, contentType := some "application/pdf"
           contentDisposition := some attachmentHeader, body := Body.pdf buf }, r.2)
    | Except.error msg =>
        ({ status := 500, body := Body.json [("error", msg)] }, r.2)

/-- The multipart request reaching POST /api/convert/file: either no file
part, or a file with its MIME type, original name and text content. -/
inductive FileReq where
  | noFile
  | file (mimetype originalname content : String)
  deriving Repr, DecidableEq

/-- JavaScript's String.prototype.endsWith over the characters of the two
strings. -/
def jsEndsWith (s pat : String) : Bool :=
  pat.data.isSuffixOf s.data

/-- multer's fileFilter predicate (src/unnamed/part_001 lines 43-49):
accept when the MIME type is text/html or the original name ends in .html. -/
def fileFilter (mimetype originalname : String) : Bool :=
  mimetype == "text/html" || jsEndsWith originalname ".html"

/-- What the file endpoint leaves behind: the response, the event trace, and
whether the uploaded temp file is still on disk once the response is sent. -/
structure FileOut where
  response : Response
  events : List Ev
  tempRemains : Bool
  deriving Repr, DecidableEq

/-- The POST /api/convert/file pipeline (src/unnamed/part_001 lines 130-153
plus the multer fileFilter and the error middleware of lines 194-197). A
filter-rejected file is never stored and its Error reaches the generic error
middleware, which answers 500. An accepted file is stored, read and rendered;
fs.remove runs only after a successful render, so on a thrown render error
the catch sends 500 with the temp file still on disk. The options JSON-string
field is taken already parsed; the stored temp path is abstracted by the
upload's original name. -/
def handleConvertFile (req : FileReq) (o : UserOptions)
    (outcome : Except String (List Nat)) : FileOut :=
  match req with
  | FileReq.noFile =>
      { response :=
          { status := 400
            body := Body.json [("error", "HTML file is required")] }
        events := []
        tempRemains := false }
  | FileReq.file m n _c =>
      if fileFilter m n then
        let r := convertHTML o outcome
        match r.1 with
        | Except.ok buf =>
            { response :=
                { status := 200
                  contentType := some "application/pdf"
                  contentDisposition := some attachmentHeader
                  body := Body.pdf buf }
              events := Ev.readFile n :: r.2
              tempRemains := false }
        | Except.error msg =>
            { response := { status := 500, body := Body.json [("error", msg)] }
              events := Ev.readFile n :: r.2
              tempRemains := true }
      else
        { response :=
            { status := 500
              body := Body.json [("error", "Only HTML files are allowed!")] }
          events := []
          tempRemains := false }

/-- The JSON object returned by GET /api/options. -/
structure OptionsResp where
  formats : List String
  orientations : List String
  defaultOptions : RenderOptions
  deriving Repr, DecidableEq

/-- The literal of src/unnamed/part_001 lines 179-190. -/
def apiOptionsResponse : OptionsResp :=
  { formats := ["A4", "Letter", "Legal", "Tabloid", "Ledger", "A0", "A1", "A2",
      "A3", "A5", "A6"]
    orientations := ["portrait", "landscape"]
    defaultOptions :=
      { format := "A4"
        orientation := "portrait"
        margin := defaultMargin
        printBackground := true
        scale := 1
        timeout := 30000 } }

/-- The GET /api/options handler (src/unnamed/part_001 lines 178-191): it
only serializes the literal, so its event trace is empty. -/
def handleApiOptions : OptionsResp × List Ev :=
  (apiOptionsResponse, [])

/-- The CLI's HTMLToPDFConverter.convertFromFile
(src/html_to_pdf_converter.js lines 22-47) over an abstract filesystem
mapping paths to contents: when the path does not exist it throws the
not-found error before ensureDir, before the read and before convertHTML;
otherwise it ensures the output directory, reads the file and renders,
rethrowing any render error unchanged. -/
def convertFromFile (fsys : String → Option String) (htmlFile outputPdf : String)
    (o : UserOptions) (outcome : Except String Unit) :
    Except String Unit × List Ev :=
  match fsys htmlFile with
  | none =>
      (Except.error ("HTML file '" ++ htmlFile ++ "' not found!"), [])
  | some _content =>
      let r := convertHTMLCli o outputPdf outcome
      (r.1, Ev.ensureDir :: Ev.readFile htmlFile :: r.2)

/-- A successful conversion response: 200, the PDF content type, the fixed
attachment header, and a binary body. -/
def pdfSuccess (r : Response) : Prop :=
  r.status = 200 ∧ r.contentType = some "application/pdf" ∧
    r.contentDisposition = some attachmentHeader ∧ ∃ b, r.body = Body.pdf b

/-- A structured failure response: status 400 or 500 and a JSON body whose
single field is named error. -/
def jsonError (r : Response) : Prop :=
  (r.status = 400 ∨ r.status = 500) ∧ ∃ m, r.body = Body.json [("error", m)]

/-- Exactly one engine invocation per server convertHTML call, whatever the
engine outcome. -/
theorem createCalls_convertHTML (o : UserOptions) (outcome : Except String (List Nat)) :
    createCalls (convertHTML o outcome).2 = 1 := by
  cases outcome <;> rfl

/-- Claim C1: option resolution is total and yields a complete record in
which every unspecified top-level field equals its documented default (A4,
portrait, the four-sided 20px margin object, true, 1.0, 30000) and every
specified field is preserved verbatim. -/
theorem resolve_defaults_and_preserves (o : UserOptions) :
    ((o.format = none → (resolve o).format = "A4") ∧
      ∀ v, o.format = some v → (resolve o).format = v) ∧
    ((o.orientation = none → (resolve o).orientation = "portrait") ∧
      ∀ v, o.orientation = some v → (resolve o).orientation = v) ∧
    ((o.margin = none → (resolve o).margin = defaultMargin) ∧
      ∀ m, o.margin = some m → (resolve o).margin = m) ∧
    ((o.printBackground = none → (resolve o).printBackground = true) ∧
      ∀ b, o.printBackground = some b → (resolve o).printBackground = b) ∧
    ((o.scale = none → (resolve o).scale = 1) ∧
      ∀ q, o.scale = some q → (resolve o).scale = q) ∧
    ((o.timeout = none → (resolve o).timeout = 30000) ∧
      ∀ t, o.timeout = some t → (resolve o).timeout = t) := by
  refine ⟨⟨fun h => ?_, fun v h => ?_⟩, ⟨fun h => ?_, fun v h => ?_⟩,
    ⟨fun h => ?_, fun m h => ?_⟩, ⟨fun h => ?_, fun b h => ?_⟩,
    ⟨fun h => ?_, fun q h => ?_⟩, ⟨fun h => ?_, fun t h => ?_⟩⟩ <;>
  simp [resolve, h]

/-- Claim C2, counterexample: an accepted and read .html upload whose render
throws is answered with 500 while the uploaded temp file is still on disk,
so deletion does not happen on the failure path. -/
theorem temp_file_leak_counterexample :
    (handleConvertFile (FileReq.file "text/html" "page.html" "<p>x</p>") {}
      (Except.error "render crashed")).response.status = 500 ∧
    (handleConvertFile (FileReq.file "text/html" "page.html" "<p>x</p>") {}
      (Except.error "render crashed")).tempRemains = true := by
  constructor <;> decide

/-- Claim C2, amended: for an upload the filter accepted, the temp file is
deleted before the response only on the success path; when the render throws
the 500 response is sent with the temp file still on disk. -/
theorem temp_file_deleted_only_on_success (m n c : String) (o : UserOptions)
    (outcome : Except String (List Nat)) (hacc : fileFilter m n = true) :
    (∀ buf, outcome = Except.ok buf →
      (handleConvertFile (FileReq.file m n c) o outcome).tempRemains = false) ∧
    (∀ msg, outcome = Except.error msg →
      (handleConvertFile (FileReq.file m n c) o outcome).tempRemains = true) := by
  constructor
  · intro buf h
    subst h
    simp [handleConvertFile, hacc, convertHTML]
  · intro msg h
    subst h
    simp [handleConvertFile, hacc, convertHTML]

/-- The amended C2 facts at a concrete accepted upload, for both engine
outcomes. -/
theorem temp_file_deleted_only_on_success_witness :
    (handleConvertFile (FileReq.file "text/html" "a.html" "<p>") {}
      (Except.ok [37, 80, 68, 70])).tempRemains = false ∧
    (handleConvertFile (FileReq.file "text/html" "a.html" "<p>") {}
      (Except.error "boom")).tempRemains = true :=
  ⟨(temp_file_deleted_only_on_success "text/html" "a.html" "<p>" {}
      (Except.ok [37, 80, 68, 70]) (by decide)).1 [37, 80, 68, 70] rfl,
   (temp_file_deleted_only_on_success "text/html" "a.html" "<p>" {}
      (Except.error "boom") (by decide)).2 "boom" rfl⟩

/-- Claim C3: in both convertHTML variants the browser is closed on every
exit path of the render call: the event trace always ends in closeBrowser
after the single engine invocation, and only then does the buffer or the
(server-wrapped) error propagate to the caller. -/
theorem browser_closed_every_path (o : UserOptions) (outputPdf : String)
    (outS : Except String (List Nat)) (outC : Except String Unit) :
    (convertHTML o outS).2 =
      [Ev.setOptions (mkPdfOptions o), Ev.create, Ev.closeBrowser] ∧
    (convertHTML o outS).2.getLast? = some Ev.closeBrowser ∧
    (∀ buf, outS = Except.ok buf → (convertHTML o outS).1 = Except.ok buf) ∧
    (∀ msg, outS = Except.error msg →
      (convertHTML o outS).1 = Except.error ("PDF creation failed: " ++ msg)) ∧
    (convertHTMLCli o outputPdf outC).2 =
      [Ev.setOptions (mkPdfOptionsCli o outputPdf), Ev.create, Ev.closeBrowser] ∧
    (convertHTMLCli o outputPdf outC).2.getLast? = some Ev.closeBrowser ∧
    (∀ msg, outC = Except.error msg →
      (convertHTMLCli o outputPdf outC).1 = Except.error msg) := by
  cases outS <;> cases outC <;> simp [convertHTML, convertHTMLCli]

/-- Claim C4, counterexample: an upload that is neither text/html nor named
.html is answered with 500, not the 400 the claim states. -/
theorem wrong_type_upload_counterexample :
    (handleConvertFile (FileReq.file "text/markdown" "notes.md" "# hi") {}
      (Except.ok [37])).response.status = 500 ∧
    ¬ (handleConvertFile (FileReq.file "text/markdown" "notes.md" "# hi") {}
      (Except.ok [37])).response.status = 400 := by
  constructor <;> decide

/-- Claim C4, amended: a filter-rejected upload is answered with HTTP 500
and the structured filter-error body through the generic error middleware,
before any render attempt, and no artifact remains in the upload
directory. -/
theorem wrong_type_upload_rejected (m n c : String) (o : UserOptions)
    (outcome : Except String (List Nat)) (hrej : fileFilter m n = false) :
    (handleConvertFile (FileReq.file m n c) o outcome).response.status = 500 ∧
    (handleConvertFile (FileReq.file m n c) o outcome).response.body =
      Body.json [("error", "Only HTML files are allowed!")] ∧
    (handleConvertFile (FileReq.file m n c) o outcome).events = [] ∧
    (handleConvertFile (FileReq.file m n c) o outcome).tempRemains = false := by
  simp [handleConvertFile, hrej]

/-- The amended C4 facts at a concrete rejected upload. -/
theorem wrong_type_upload_rejected_witness :
    (handleConvertFile (FileReq.file "image/png" "pic.png" "PNG") {}
      (Except.ok [37])).response.status = 500 ∧
    (handleConvertFile (FileReq.file "image/png" "pic.png" "PNG") {}
      (Except.ok [37])).events = [] :=
  ⟨(wrong_type_upload_rejected "image/png" "pic.png" "PNG" {}
      (Except.ok [37]) (by decide)).1,
   (wrong_type_upload_rejected "image/png" "pic.png" "PNG" {}
      (Except.ok [37]) (by decide)).2.2.1⟩

/-- The string handler always answers either a complete PDF attachment or a
structured JSON error: a successful render with non-falsy html yields
exactly the 200 PDF-attachment response carrying the rendered bytes; 400 for
a falsy html field, 500 on a render throw, never a binary body on failure,
and at most one engine invocation. -/
theorem stringHandler_discipline (req : ReqString) (outcome : Except String (List Nat)) :
    (pdfSuccess (handleConvertString req outcome).1 ∨
      jsonError (handleConvertString req outcome).1) ∧
    createCalls (handleConvertString req outcome).2 ≤ 1 ∧
    (falsyStr req.html = false → ∀ buf, outcome = Except.ok buf →
      (handleConvertString req outcome).1 =
        { status := 200
          contentType := some "application/pdf"
          contentDisposition := some attachmentHeader
          body := Body.pdf buf }) ∧
    (falsyStr req.html = true → (handleConvertString req outcome).1.status = 400) ∧
    (∀ msg, outcome = Except.error msg →
      ¬ pdfSuccess (handleConvertString req outcome).1) ∧
    (falsyStr req.html = false → ∀ msg, outcome = Except.error msg →
      (handleConvertString req outcome).1.status = 500) := by
  by_cases hf : falsyStr req.html
  · cases outcome <;>
      simp [handleConvertString, hf, pdfSuccess, jsonError, createCalls]
  · cases outcome <;>
      simp [handleConvertString, hf, convertHTML, pdfSuccess, jsonError,
        createCalls, isCreate, List.countP_cons, List.countP_nil]

/-- The url handler obeys the same response discipline as the string
handler, the exact success response included. -/
theorem urlHandler_discipline (req : ReqUrl) (outcome : Except String (List Nat)) :
    (pdfSuccess (handleConvertUrl req outcome).1 ∨
      jsonError (handleConvertUrl req outcome).1) ∧
    createCalls (handleConvertUrl req outcome).2 ≤ 1 ∧
    (falsyStr req.url = false → ∀ buf, outcome = Except.ok buf →
      (handleConvertUrl req outcome).1 =
        { status := 200
          contentType := some "application/pdf"
          contentDisposition := some attachmentHeader
          body := Body.pdf buf }) ∧
    (falsyStr req.url = true → (handleConvertUrl req outcome).1.status = 400) ∧
    (∀ msg, outcome = Except.error msg →
      ¬ pdfSuccess (handleConvertUrl req outcome).1) ∧
    (falsyStr req.url = false → ∀ msg, outcome = Except.error msg →
      (handleConvertUrl req outcome).1.status = 500) := by
  by_cases hf : falsyStr req.url
  · cases outcome <;>
      simp [handleConvertUrl, hf, pdfSuccess, jsonError, createCalls]
  · cases outcome <;>
      simp [handleConvertUrl, hf, convertHTML, pdfSuccess, jsonError,
        createCalls, isCreate, List.countP_cons, List.countP_nil]

/-- The file endpoint also answers only complete PDF attachments or
structured JSON errors, with at most one engine invocation: an accepted
upload whose render succeeds gets exactly the 200 PDF-attachment response,
and one whose render throws gets 500 with the wrapped engine message. -/
theorem fileHandler_discipline (req : FileReq) (o : UserOptions)
    (outcome : Except String (List Nat)) :
    (pdfSuccess (handleConvertFile req o outcome).response ∨
      jsonError (handleConvertFile req o outcome).response) ∧
    createCalls (handleConvertFile req o outcome).events ≤ 1 ∧
    (∀ msg, outcome = Except.error msg →
      ¬ pdfSuccess (handleConvertFile req o outcome).response) ∧
    (∀ m n c, req = FileReq.file m n c → fileFilter m n = true →
      (∀ buf, outcome = Except.ok buf →
        (handleConvertFile req o outcome).response =
          { status := 200
            contentType := some "application/pdf"
            contentDisposition := some attachmentHeader
            body := Body.pdf buf }) ∧
      (∀ msg, outcome = Except.error msg →
        (handleConvertFile req o outcome).response.status = 500 ∧
        (handleConvertFile req o outcome).response.body =
          Body.json [("error", "PDF creation failed: " ++ msg)])) ∧
    (req = FileReq.noFile →
      (handleConvertFile req o outcome).response.status = 400) := by
  cases req with
  | noFile =>
      cases outcome <;>
        simp [handleConvertFile, pdfSuccess, jsonError, createCalls]
  | file m n c =>
      by_cases hf : fileFilter m n
      · cases outcome <;>
          simp [handleConvertFile, hf, convertHTML, pdfSuccess, jsonError,
            createCalls, isCreate, List.countP_cons, List.countP_nil]
      · cases outcome <;>
          simp [handleConvertFile, hf, pdfSuccess, jsonError, createCalls]

/-- Claim C5, counterexample: the claim requires 400 for invalid input, but
the failure response to a wrong-type upload carries status 500 (with the
structured JSON error body). -/
theorem invalid_input_status_counterexample :
    (handleConvertFile (FileReq.file "text/plain" "doc.txt" "hello") {}
      (Except.ok [37])).response.status = 500 ∧
    ¬ (handleConvertFile (FileReq.file "text/plain" "doc.txt" "hello") {}
      (Except.ok [37])).response.status = 400 ∧
    jsonError (handleConvertFile (FileReq.file "text/plain" "doc.txt" "hello") {}
      (Except.ok [37])).response := by
  refine ⟨by decide, by decide, Or.inr (by decide), "Only HTML files are allowed!", ?_⟩
  decide

/-- Claim C5, amended: every conversion endpoint answers a successful render
on valid input with exactly the 200 binary-PDF response (Content-Type
application/pdf, the fixed converted.pdf attachment Content-Disposition,
body the rendered bytes) and every failure with a structured JSON error
body, never a binary body; the status is 400 for missing input, 500 for
render failures on all three endpoints and also 500 (not 400) for
filter-rejected uploads; the render is never retried (at most one engine
invocation per request). -/
theorem endpoints_response_discipline (reqS : ReqString) (requ : ReqUrl)
    (reqF : FileReq) (o : UserOptions) (outcome : Except String (List Nat)) :
    (pdfSuccess (handleConvertString reqS outcome).1 ∨
      jsonError (handleConvertString reqS outcome).1) ∧
    createCalls (handleConvertString reqS outcome).2 ≤ 1 ∧
    (falsyStr reqS.html = false → ∀ buf, outcome = Except.ok buf →
      (handleConvertString reqS outcome).1 =
        { status := 200
          contentType := some "application/pdf"
          contentDisposition := some attachmentHeader
          body := Body.pdf buf }) ∧
    (falsyStr reqS.html = true → (handleConvertString reqS outcome).1.status = 400) ∧
    (∀ msg, outcome = Except.error msg →
      ¬ pdfSuccess (handleConvertString reqS outcome).1) ∧
    (falsyStr reqS.html = false → ∀ msg, outcome = Except.error msg →
      (handleConvertString reqS outcome).1.status = 500) ∧
    (pdfSuccess (handleConvertUrl requ outcome).1 ∨
      jsonError (handleConvertUrl requ outcome).1) ∧
    createCalls (handleConvertUrl requ outcome).2 ≤ 1 ∧
    (falsyStr requ.url = false → ∀ buf, outcome = Except.ok buf →
      (handleConvertUrl requ outcome).1 =
        { status := 200
          contentType := some "application/pdf"
          contentDisposition := some attachmentHeader
          body := Body.pdf buf }) ∧
    (falsyStr requ.url = true → (handleConvertUrl requ outcome).1.status = 400) ∧
    (∀ msg, outcome = Except.error msg →
      ¬ pdfSuccess (handleConvertUrl requ outcome).1) ∧
    (falsyStr requ.url = false → ∀ msg, outcome = Except.error msg →
      (handleConvertUrl requ outcome).1.status = 500) ∧
    (pdfSuccess (handleConvertFile reqF o outcome).response ∨
      jsonError (handleConvertFile reqF o outcome).response) ∧
    createCalls (handleConvertFile reqF o outcome).events ≤ 1 ∧
    (∀ msg, outcome = Except.error msg →
      ¬ pdfSuccess (handleConvertFile reqF o outcome).response) ∧
    (∀ m n c, reqF = FileReq.file m n c → fileFilter m n = true →
      (∀ buf, outcome = Except.ok buf →
        (handleConvertFile reqF o outcome).response =
          { status := 200
            contentType := some "application/pdf"
            contentDisposition := some attachmentHeader
            body := Body.pdf buf }) ∧
      (∀ msg, outcome = Except.error msg →
        (handleConvertFile reqF o outcome).response.status = 500 ∧
        (handleConvertFile reqF o outcome).response.body =
          Body.json [("error", "PDF creation failed: " ++ msg)])) ∧
    (∀ m n c, reqF = FileReq.file m n c → fileFilter m n = false →
      (handleConvertFile reqF o outcome).response.status = 500) ∧
    (reqF = FileReq.noFile →
      (handleConvertFile reqF o outcome).response.status = 400) := by
  obtain ⟨s1, s2, s3, s4, s5, s6⟩ := stringHandler_discipline reqS outcome
  obtain ⟨u1, u2, u3, u4, u5, u6⟩ := urlHandler_discipline requ outcome
  obtain ⟨f1, f2, f3, f4, f5⟩ := fileHandler_discipline reqF o outcome
  refine ⟨s1, s2, s3, s4, s5, s6, u1, u2, u3, u4, u5, u6, f1, f2, f3, f4, ?_, f5⟩
  intro m n c hreq hrej
  subst hreq
  simp [handleConvertFile, hrej]

/-- Claim C6: a string- or url-conversion request whose required field is
absent or the empty string is answered 400 with the structured error body
and no render session is created (the event trace is empty). -/
theorem missing_input_400_no_render (reqS : ReqString) (requ : ReqUrl)
    (outcome : Except String (List Nat))
    (hs : reqS.html = none ∨ reqS.html = some "")
    (hu : requ.url = none ∨ requ.url = some "") :
    (handleConvertString reqS outcome).1.status = 400 ∧
    (handleConvertString reqS outcome).1.body =
      Body.json [("error", "HTML content is required")] ∧
    (handleConvertString reqS outcome).2 = [] ∧
    (handleConvertUrl requ outcome).1.status = 400 ∧
    (handleConvertUrl requ outcome).1.body =
      Body.json [("error", "URL is required")] ∧
    (handleConvertUrl requ outcome).2 = [] := by
  have h1 : falsyStr reqS.html = true := by
    rcases hs with h | h <;> simp [falsyStr, h]
  have h2 : falsyStr requ.url = true := by
    rcases hu with h | h <;> simp [falsyStr, h]
  simp [handleConvertString, handleConvertUrl, h1, h2]

/-- The C6 facts at the concrete empty request bodies. -/
theorem missing_input_400_no_render_witness :
    (handleConvertString {} (Except.ok [37])).1.status = 400 ∧
    (handleConvertUrl {} (Except.ok [37])).2 = [] :=
  ⟨(missing_input_400_no_render {} {} (Except.ok [37])
      (Or.inl rfl) (Or.inl rfl)).1,
   (missing_input_400_no_render {} {} (Except.ok [37])
      (Or.inl rfl) (Or.inl rfl)).2.2.2.2.2⟩

/-- Claim C7, counterexample: a caller margin specifying only the top side
does not keep the 20px default on the other sides; the resolved bottom side
is absent, not "20px". -/
theorem margin_not_merged_counterexample :
    (resolve { margin := some { top := some "5px" } }).margin.bottom = none ∧
    ¬ (resolve { margin := some { top := some "5px" } }).margin.bottom
      = some "20px" := by
  constructor
  · rfl
  · decide

/-- Claim C7, amended: the caller's margin object wholesale-replaces the
default: when present it is used verbatim (unspecified sides stay absent),
and the four-sided 20px default is used only when the margin field is
entirely absent. -/
theorem margin_wholesale_replacement (o : UserOptions) :
    (∀ m, o.margin = some m → (resolve o).margin = m) ∧
    (o.margin = none → (resolve o).margin = defaultMargin) := by
  constructor
  · intro m h
    simp [resolve, h]
  · intro h
    simp [resolve, h]

/-- Claim C8: GET /api/options performs no rendering and returns exactly the
11 documented format names, exactly the two orientation values, and a
defaultOptions record that is complete, equals the resolution of the empty
options object, and round-trips verbatim through resolution as a caller
input. -/
theorem api_options_exact :
    handleApiOptions.2 = [] ∧
    handleApiOptions.1 = apiOptionsResponse ∧
    apiOptionsResponse.formats =
      ["A4", "Letter", "Legal", "Tabloid", "Ledger", "A0", "A1", "A2", "A3",
        "A5", "A6"] ∧
    apiOptionsResponse.formats.length = 11 ∧
    apiOptionsResponse.formats.Nodup ∧
    apiOptionsResponse.orientations = ["portrait", "landscape"] ∧
    apiOptionsResponse.defaultOptions = resolve {} ∧
    resolve (toUserOptions apiOptionsResponse.defaultOptions) =
      apiOptionsResponse.defaultOptions := by
  refine ⟨rfl, rfl, rfl, rfl, ?_, rfl, rfl, rfl⟩
  decide

/-- Claim C9: the CLI file conversion over a filesystem in which the input
path does not exist fails with the not-found error and an empty event trace:
no directory creation, no file read and no render attempt precede the
failure. -/
theorem missing_input_file_fails_before_read (fsys : String → Option String)
    (htmlFile outputPdf : String) (o : UserOptions) (outcome : Except String Unit)
    (h : fsys htmlFile = none) :
    (convertFromFile fsys htmlFile outputPdf o outcome).1 =
      Except.error ("HTML file '" ++ htmlFile ++ "' not found!") ∧
    (convertFromFile fsys htmlFile outputPdf o outcome).2 = [] := by
  simp [convertFromFile, h]

/-- The C9 facts on the empty filesystem at a concrete path. -/
theorem missing_input_file_fails_before_read_witness :
    (convertFromFile (fun _ => none) "missing.html" "out.pdf" {}
      (Except.ok ())).2 = [] :=
  (missing_input_file_fails_before_read (fun _ => none) "missing.html"
    "out.pdf" {} (Except.ok ()) rfl).2

/-- Claim C10: the landscape flag handed to the engine is true exactly when
the resolved orientation is the exact string landscape; any other value,
including the differently-cased Landscape, yields portrait rendering with no
error, in both the server and the CLI option builders. -/
theorem landscape_flag_exact_match :
    (∀ o : UserOptions, ((mkPdfOptions o).landscape = true ↔
      (resolve o).orientation = "landscape")) ∧
    (mkPdfOptions { orientation := some "Landscape" }).landscape = false ∧
    (mkPdfOptionsCli { orientation := some "Landscape" } "out.pdf").landscape
      = false := by
  refine ⟨fun o => ?_, by decide, by decide⟩
  simp [mkPdfOptions]

end DeepSeekPdf
